import Mathlib

/-!
Verification development for the slackbot-ai webhook core.

We shallowly embed the TypeScript source of the signed-webhook
verification and deferred-response dispatch protocol:

* `src/lib/slack.ts` (WebCrypto variant): `parseSlashCommandPayload`,
  `verifySlackRequest`, `timingSafeEqual`, `createSlackResponse`,
  `createErrorResponse`;
* the Node-crypto variant of the same library;
* `src/api/slack/reword.ts`: the request handler and the deferred task
  `processAndRespond`.

JavaScript strings are modelled as lists of UTF-16 code units
(`List Nat`).  Platform primitives used by the source (TextEncoder,
Buffer.from(·, "utf8"), HMAC-SHA256, URLSearchParams, parseInt,
String.prototype.trim) are embedded from their platform specifications,
executably.  External effects (the text-transform capability, fetch,
waitUntil) are modelled by explicit outcome parameters and by returning
the list of POST attempts as data.
-/

namespace Reword

/-- A JavaScript string: a finite sequence of UTF-16 code units. -/
abbrev JSString := List Nat

/-- Embed an ASCII Lean string literal as a JavaScript string. -/
def jstr (s : String) : JSString := s.data.map Char.toNat

/-! ### JavaScript whitespace, trim, parseInt -/

/-- The ECMAScript WhiteSpace and LineTerminator code points, as used by
`String.prototype.trim` and by `parseInt`'s leading-whitespace skip. -/
def jsWhitespace (c : Nat) : Bool :=
  c = 9 ∨ c = 10 ∨ c = 11 ∨ c = 12 ∨ c = 13 ∨ c = 32 ∨ c = 160 ∨
  c = 5760 ∨ (8192 ≤ c ∧ c ≤ 8202) ∨ c = 8232 ∨ c = 8233 ∨ c = 8239 ∨
  c = 8287 ∨ c = 12288 ∨ c = 65279

/-- JavaScript `String.prototype.trim`: strip leading and trailing whitespace. -/
def jsTrim (s : JSString) : JSString :=
  ((s.dropWhile jsWhitespace).reverse.dropWhile jsWhitespace).reverse

/-- Decimal digit test for `parseInt(·, 10)`. -/
def isDigit (c : Nat) : Bool := 48 ≤ c ∧ c ≤ 57

/-- Numeric value of a run of decimal digits. -/
def digitsVal (l : List Nat) : Nat := l.foldl (fun acc d => acc * 10 + (d - 48)) 0

/-- ECMAScript `parseInt(s, 10)`: skip leading whitespace, read an
optional sign, then the longest prefix of decimal digits; `none`
models the NaN result when no digit is found.  Trailing characters are
ignored. -/
def jsParseInt10 (s : JSString) : Option Int :=
  let s1 := s.dropWhile jsWhitespace
  match s1 with
  | 43 :: r => (fun d => if d.isEmpty then none else some (digitsVal d : Int)) (r.takeWhile isDigit)
  | 45 :: r => (fun d => if d.isEmpty then none else some (-(digitsVal d : Int))) (r.takeWhile isDigit)
  | r => (fun d => if d.isEmpty then none else some (digitsVal d : Int)) (r.takeWhile isDigit)

/-! ### UTF-8 encoding (TextEncoder / Buffer.from(·, "utf8"))

Both platform encoders convert a UTF-16 code-unit sequence to UTF-8
bytes, combining well-formed surrogate pairs and replacing lone
surrogates with U+FFFD (bytes EF BF BD). -/

/-- High (leading) surrogate test. -/
def isHighSurrogate (c : Nat) : Bool := 55296 ≤ c ∧ c ≤ 56319

/-- Low (trailing) surrogate test. -/
def isLowSurrogate (c : Nat) : Bool := 56320 ≤ c ∧ c ≤ 57343

/-- UTF-8 bytes of a scalar value below 0x80 is the value itself; this
helper emits the multi-byte chunk for a scalar value `c ≥ 0x80`. -/
def utf8Chunk (c : Nat) : List Nat :=
  if c < 2048 then
    [192 + c / 64, 128 + c % 64]
  else if c < 65536 then
    [224 + c / 4096, 128 + c / 64 % 64, 128 + c % 64]
  else
    [240 + c / 262144, 128 + c / 4096 % 64, 128 + c / 64 % 64, 128 + c % 64]

/-- The UTF-8 encoding of U+FFFD, used for lone surrogates. -/
def replacementBytes : List Nat := [239, 191, 189]

/-- UTF-8 encode a UTF-16 code-unit sequence, WHATWG style: surrogate
pairs combine to one scalar, lone surrogates become U+FFFD. -/
def utf8Encode : List Nat → List Nat
  | [] => []
  | [c] =>
    if c < 128 then [c]
    else if isHighSurrogate c then replacementBytes
    else if isLowSurrogate c then replacementBytes
    else utf8Chunk c
  | c :: c2 :: rest =>
    if c < 128 then c :: utf8Encode (c2 :: rest)
    else if isHighSurrogate c then
      if isLowSurrogate c2 then
        utf8Chunk (65536 + (c - 55296) * 1024 + (c2 - 56320)) ++ utf8Encode rest
      else replacementBytes ++ utf8Encode (c2 :: rest)
    else if isLowSurrogate c then replacementBytes ++ utf8Encode (c2 :: rest)
    else utf8Chunk c ++ utf8Encode (c2 :: rest)

/-! ### SHA-256 and HMAC-SHA256

Executable embedding of FIPS 180-4 SHA-256 over byte lists, used by both
verifier variants (`createHmac("sha256", ·)` and WebCrypto HMAC-SHA256
compute the same function). -/

/-- 32-bit modular addition. -/
def add32 (a b : Nat) : Nat := (a + b) % 4294967296

/-- 32-bit right rotation (argument below 2^32). -/
def rotr (n x : Nat) : Nat := ((x >>> n) ||| (x <<< (32 - n))) % 4294967296

/-- SHA-256 Σ0. -/
def bsig0 (x : Nat) : Nat := (rotr 2 x) ^^^ (rotr 13 x) ^^^ (rotr 22 x)

/-- SHA-256 Σ1. -/
def bsig1 (x : Nat) : Nat := (rotr 6 x) ^^^ (rotr 11 x) ^^^ (rotr 25 x)

/-- SHA-256 σ0. -/
def ssig0 (x : Nat) : Nat := (rotr 7 x) ^^^ (rotr 18 x) ^^^ (x >>> 3)

/-- SHA-256 σ1. -/
def ssig1 (x : Nat) : Nat := (rotr 17 x) ^^^ (rotr 19 x) ^^^ (x >>> 10)

/-- SHA-256 Ch. -/
def sha2ch (x y z : Nat) : Nat := (x &&& y) ^^^ ((x ^^^ 4294967295) &&& z)

/-- SHA-256 Maj. -/
def sha2maj (x y z : Nat) : Nat := (x &&& y) ^^^ (x &&& z) ^^^ (y &&& z)

/-- The SHA-256 round constants. -/
def sha2K : List Nat :=
  [1116352408, 1899447441, 3049323471, 3921009573, 961987163, 1508970993,
   2453635748, 2870763221, 3624381080, 310598401, 607225278, 1426881987,
   1925078388, 2162078206, 2614888103, 3248222580, 3835390401, 4022224774,
   264347078, 604807628, 770255983, 1249150122, 1555081692, 1996064986,
   2554220882, 2821834349, 2952996808, 3210313671, 3336571891, 3584528711,
   113926993, 338241895, 666307205, 773529912, 1294757372, 1396182291,
   1695183700, 1986661051, 2177026350, 2456956037, 2730485921, 2820302411,
   3259730800, 3345764771, 3516065817, 3600352804, 4094571909, 275423344,
   430227734, 506948616, 659060556, 883997877, 958139571, 1322822218,
   1537002063, 1747873779, 1955562222, 2024104815, 2227730452, 2361852424,
   2428436474, 2756734187, 3204031479, 3329325298]

/-- SHA-256 working state: eight 32-bit words. -/
structure Sha2State where
  a : Nat
  b : Nat
  c : Nat
  d : Nat
  e : Nat
  f : Nat
  g : Nat
  h : Nat

/-- One SHA-256 round, given a schedule word and a round constant. -/
def sha2Round (s : Sha2State) (wk : Nat × Nat) : Sha2State :=
  let t1 := add32 s.h (add32 (bsig1 s.e) (add32 (sha2ch s.e s.f s.g) (add32 wk.2 wk.1)))
  let t2 := add32 (bsig0 s.a) (sha2maj s.a s.b s.c)
  ⟨add32 t1 t2, s.a, s.b, s.c, add32 s.d t1, s.e, s.f, s.g⟩

/-- Extend the 16 block words to the 64-word message schedule.  The
accumulator holds the schedule so far in reverse order, giving direct
access to w[t-2], w[t-7], w[t-15], w[t-16]. -/
def sha2Extend : Nat → List Nat → List Nat
  | 0, acc => acc.reverse
  | n + 1, acc =>
      sha2Extend n
        (add32 (add32 (ssig1 (acc.getD 1 0)) (acc.getD 6 0))
               (add32 (ssig0 (acc.getD 14 0)) (acc.getD 15 0)) :: acc)

/-- The full 64-word message schedule of one block. -/
def sha2Schedule (block : List Nat) : List Nat := sha2Extend 48 block.reverse

/-- Compress one 16-word block into the state. -/
def sha2Compress (s : Sha2State) (block : List Nat) : Sha2State :=
  let t := ((sha2Schedule block).zip sha2K).foldl sha2Round s
  ⟨add32 t.a s.a, add32 t.b s.b, add32 t.c s.c, add32 t.d s.d,
   add32 t.e s.e, add32 t.f s.f, add32 t.g s.g, add32 t.h s.h⟩

/-- Fold the compression function over successive 16-word blocks. -/
def sha2Blocks (s : Sha2State) : List Nat → Sha2State
  | w0 :: w1 :: w2 :: w3 :: w4 :: w5 :: w6 :: w7 ::
    w8 :: w9 :: w10 :: w11 :: w12 :: w13 :: w14 :: w15 :: rest =>
      sha2Blocks
        (sha2Compress s [w0, w1, w2, w3, w4, w5, w6, w7, w8, w9, w10, w11, w12, w13, w14, w15])
        rest
  | _ => s

/-- Big-endian 32-bit words from bytes (input length a multiple of 4). -/
def bytesToWords : List Nat → List Nat
  | b0 :: b1 :: b2 :: b3 :: rest =>
      (b0 * 16777216 + b1 * 65536 + b2 * 256 + b3) :: bytesToWords rest
  | _ => []

/-- Big-endian 64-bit length field. -/
def u64be (n : Nat) : List Nat :=
  [n >>> 56 % 256, n >>> 48 % 256, n >>> 40 % 256, n >>> 32 % 256,
   n >>> 24 % 256, n >>> 16 % 256, n >>> 8 % 256, n % 256]

/-- SHA-256 padding: 0x80, zeros to 56 mod 64, then the bit length. -/
def sha2Pad (msg : List Nat) : List Nat :=
  msg ++ 128 :: List.replicate ((64 - (msg.length + 9) % 64) % 64) 0 ++ u64be (msg.length * 8)

/-- Bytes of one 32-bit word, big-endian. -/
def wordBytes (w : Nat) : List Nat := [w >>> 24 % 256, w >>> 16 % 256, w >>> 8 % 256, w % 256]

/-- The SHA-256 initial state. -/
def sha2Init : Sha2State :=
  ⟨1779033703, 3144134277, 1013904242, 2773480762,
   1359893119, 2600822924, 528734635, 1541459225⟩

/-- SHA-256 of a byte list, as 32 bytes. -/
def sha256 (msg : List Nat) : List Nat :=
  let s := sha2Blocks sha2Init (bytesToWords (sha2Pad msg))
  wordBytes s.a ++ wordBytes s.b ++ wordBytes s.c ++ wordBytes s.d ++
  wordBytes s.e ++ wordBytes s.f ++ wordBytes s.g ++ wordBytes s.h

/-- HMAC-SHA256 (RFC 2104) over byte lists. -/
def hmacSha256 (key msg : List Nat) : List Nat :=
  let k0 := if 64 < key.length then sha256 key else key
  let k1 := k0 ++ List.replicate (64 - k0.length) 0
  sha256 ((k1.map (fun b => b ^^^ 92)) ++ sha256 ((k1.map (fun b => b ^^^ 54)) ++ msg))

/-- One lowercase hex digit (argument below 16). -/
def hexDigit (n : Nat) : Nat := if n < 10 then 48 + n else 87 + n

/-- Two lowercase hex digits of one byte, as code units: the embedding of
`b.toString(16).padStart(2, "0")` and of Node's hex digest alphabet. -/
def hexByte (b : Nat) : List Nat := [hexDigit (b / 16 % 16), hexDigit (b % 16)]

/-- Lowercase hex rendering of a byte list, as a JavaScript string. -/
def toHexStr (bytes : List Nat) : JSString := bytes.foldr (fun b acc => hexByte b ++ acc) []

/-- Hex HMAC-SHA256 digest of UTF-8 encoded secret and message strings. -/
def hmacSha256Hex (secret msg : JSString) : JSString :=
  toHexStr (hmacSha256 (utf8Encode secret) (utf8Encode msg))

/-! ### The two signature verifiers

`src/lib/slack.ts` exists in two variants: an asynchronous WebCrypto one
whose comparison is a hand-rolled character-wise `timingSafeEqual` over
strings, and a synchronous Node one comparing `Buffer.from(·, "utf8")`
with `crypto.timingSafeEqual` inside try/catch. -/

/-- JavaScript string falsiness of a `string | null` value: `!x` is true
exactly for `null` and the empty string. -/
def jsFalsyStr (s : Option JSString) : Bool :=
  match s with
  | none => true
  | some l => l.isEmpty

/-- The signature base string `` `v0:${timestamp}:${body}` ``. -/
def sigBasestring (ts body : JSString) : JSString :=
  jstr "v0:" ++ ts ++ jstr ":" ++ body

/-- The expected signature `"v0=" + hex(HMAC-SHA256(secret, base))`. -/
def expectedSignature (secret ts body : JSString) : JSString :=
  jstr "v0=" ++ hmacSha256Hex secret (sigBasestring ts body)

/-- The WebCrypto variant's `timingSafeEqual(a, b)`: equal length
required first, then every character position XOR-accumulated into an
OR-result compared with zero. -/
def timingSafeEqualStr (a b : JSString) : Bool :=
  if a.length ≠ b.length then false
  else decide ((List.zipWith (fun x y => x ^^^ y) a b).foldl (fun r x => r ||| x) 0 = 0)

/-- Node's `crypto.timingSafeEqual` on byte buffers: throws
(`none`) when the lengths differ, otherwise decides byte equality. -/
def timingSafeEqualNode (a b : List Nat) : Option Bool :=
  if a.length ≠ b.length then none
  else some (decide (a = b))

/-- The replay-window test shared by both verifiers:
`Math.abs(currentTime - parseInt(timestamp, 10)) > 60 * 5`.  When
`parseInt` yields NaN the comparison `NaN > 300` is false, so the guard
does not fire. -/
def staleTimestamp (now : Int) (ts : JSString) : Bool :=
  match jsParseInt10 ts with
  | some v => decide (300 < (now - v).natAbs)
  | none => false

/-- The `verifySlackRequest` of the WebCrypto library variant.  `now` is
`Math.floor(Date.now() / 1000)`.  The function is fallible: after the
header and replay checks it calls `crypto.subtle.importKey` on the
UTF-8 encoding of the signing secret with no try/catch around it, and
the Web Cryptography API throws a DataError on a zero-length HMAC key —
so with an empty secret the source rejects instead of returning a
boolean; `none` models that throw. -/
def verifySlackRequestWeb (secret : JSString) (signature ts : Option JSString)
    (body : JSString) (now : Int) : Option Bool :=
  if jsFalsyStr signature || jsFalsyStr ts then some false
  else
    let sigS := signature.getD []
    let tsS := ts.getD []
    if staleTimestamp now tsS then some false
    else if (utf8Encode secret).isEmpty then none
    else some (timingSafeEqualStr sigS (expectedSignature secret tsS body))

/-- The `verifySlackRequest` of the Node library variant: identical header
and replay checks, but the comparison UTF-8 encodes both strings and
uses Node's `timingSafeEqual`, with the length-mismatch exception caught
and turned into `false`. -/
def verifySlackRequestNode (secret : JSString) (signature ts : Option JSString)
    (body : JSString) (now : Int) : Bool :=
  if jsFalsyStr signature || jsFalsyStr ts then false
  else
    let sigS := signature.getD []
    let tsS := ts.getD []
    if staleTimestamp now tsS then false
    else
      (timingSafeEqualNode (utf8Encode sigS)
        (utf8Encode (expectedSignature secret tsS body))).getD false

/-! ### URLSearchParams and the payload parser

`parseSlashCommandPayload` builds a `URLSearchParams` from the raw body
and reads each known key with `params.get(k) || ""`.  The WHATWG parser
UTF-8 encodes the input (after stripping one leading `?`), splits the
bytes on `&` skipping empty segments, splits each segment at its first
`=`, turns `+` into space, percent-decodes, and UTF-8 decodes name and
value. -/

/-- Split a byte list on a separator byte, keeping empty segments. -/
def splitOnByte (sep : Nat) : List Nat → List (List Nat)
  | [] => [[]]
  | c :: r =>
    if c = sep then [] :: splitOnByte sep r
    else
      match splitOnByte sep r with
      | s :: ss => (c :: s) :: ss
      | [] => [[c]]

/-- Split a segment at its first `=` byte; a segment with no `=` has an
empty value. -/
def splitFirstEq : List Nat → List Nat × List Nat
  | [] => ([], [])
  | c :: r =>
    if c = 61 then ([], r)
    else
      let p := splitFirstEq r
      (c :: p.1, p.2)

/-- Value of one hex digit byte, if it is one. -/
def hexVal (c : Nat) : Option Nat :=
  if 48 ≤ c ∧ c ≤ 57 then some (c - 48)
  else if 65 ≤ c ∧ c ≤ 70 then some (c - 55)
  else if 97 ≤ c ∧ c ≤ 102 then some (c - 87)
  else none

/-- Percent-decode a byte list: `%XY` with two hex digits becomes one
byte; anything else is copied. -/
def percentDecode : List Nat → List Nat
  | 37 :: a :: b :: r =>
    match hexVal a, hexVal b with
    | some x, some y => (16 * x + y) :: percentDecode r
    | _, _ => 37 :: percentDecode (a :: b :: r)
  | c :: r => c :: percentDecode r
  | [] => []

/-- Plus bytes become spaces before percent-decoding. -/
def plusToSpace (l : List Nat) : List Nat := l.map (fun c => if c = 43 then 32 else c)

/-- UTF-16 code units of one scalar value. -/
def scalarToUnits (u : Nat) : List Nat :=
  if u < 65536 then [u]
  else [55296 + (u - 65536) / 1024, 56320 + (u - 65536) % 1024]

/-- UTF-8 decode a byte list to UTF-16 code units; an invalid leading
byte or truncated sequence yields U+FFFD and resumes at the following
byte. -/
def utf8Decode : List Nat → List Nat
  | [] => []
  | b :: r =>
    if b < 128 then b :: utf8Decode r
    else if 194 ≤ b ∧ b ≤ 223 then
      match r with
      | b2 :: r2 =>
        if 128 ≤ b2 ∧ b2 ≤ 191 then ((b - 192) * 64 + (b2 - 128)) :: utf8Decode r2
        else 65533 :: utf8Decode (b2 :: r2)
      | [] => [65533]
    else if 224 ≤ b ∧ b ≤ 239 then
      match r with
      | b2 :: b3 :: r3 =>
        if 128 ≤ b2 ∧ b2 ≤ 191 ∧ 128 ≤ b3 ∧ b3 ≤ 191 ∧
           2048 ≤ (b - 224) * 4096 + (b2 - 128) * 64 + (b3 - 128) then
          ((b - 224) * 4096 + (b2 - 128) * 64 + (b3 - 128)) :: utf8Decode r3
        else 65533 :: utf8Decode (b2 :: b3 :: r3)
      | [b2] => 65533 :: utf8Decode [b2]
      | [] => [65533]
    else if 240 ≤ b ∧ b ≤ 244 then
      match r with
      | b2 :: b3 :: b4 :: r4 =>
        if 128 ≤ b2 ∧ b2 ≤ 191 ∧ 128 ≤ b3 ∧ b3 ≤ 191 ∧ 128 ≤ b4 ∧ b4 ≤ 191 ∧
           65536 ≤ (b - 240) * 262144 + (b2 - 128) * 4096 + (b3 - 128) * 64 + (b4 - 128) then
          scalarToUnits ((b - 240) * 262144 + (b2 - 128) * 4096 + (b3 - 128) * 64 + (b4 - 128))
            ++ utf8Decode r4
        else 65533 :: utf8Decode (b2 :: b3 :: b4 :: r4)
      | [b2, b3] => 65533 :: utf8Decode [b2, b3]
      | [b2] => 65533 :: utf8Decode [b2]
      | [] => [65533]
    else 65533 :: utf8Decode r

/-- Decode one form-urlencoded byte segment into a string value. -/
def formDecodeStr (bytes : List Nat) : JSString :=
  utf8Decode (percentDecode (plusToSpace bytes))

/-- Strip one leading `?`, as the `URLSearchParams` string constructor
does. -/
def stripLeadingQuestion (s : JSString) : JSString :=
  match s with
  | 63 :: r => r
  | r => r

/-- The raw nonempty `&`-separated byte segments of a body string. -/
def rawSegments (body : JSString) : List (List Nat) :=
  (splitOnByte 38 (utf8Encode (stripLeadingQuestion body))).filter (fun s => ¬s.isEmpty)

/-- The decoded name/value pairs held by `new URLSearchParams(body)`. -/
def formPairs (body : JSString) : List (JSString × JSString) :=
  (rawSegments body).map
    (fun seg => (formDecodeStr (splitFirstEq seg).1, formDecodeStr (splitFirstEq seg).2))

/-- WHATWG `params.get(k)`: first value stored under `k`, else `null`. -/
def paramsGet (pairs : List (JSString × JSString)) (k : JSString) : Option JSString :=
  (pairs.find? (fun p => decide (p.1 = k))).map (fun p => p.2)

/-- The read `params.get(k) || ""`. -/
def getOrEmpty (pairs : List (JSString × JSString)) (k : JSString) : JSString :=
  match paramsGet pairs k with
  | some v => if v.isEmpty then [] else v
  | none => []

/-- The structured slash-command payload. -/
structure SlackSlashCommandPayload where
  token : JSString
  team_id : JSString
  team_domain : JSString
  channel_id : JSString
  channel_name : JSString
  user_id : JSString
  user_name : JSString
  command : JSString
  text : JSString
  response_url : JSString
  trigger_id : JSString
deriving DecidableEq

/-- Build the payload record from the parameter pairs, reading each of
the eleven known keys with an empty-string default. -/
def payloadOfPairs (pairs : List (JSString × JSString)) : SlackSlashCommandPayload :=
  ⟨getOrEmpty pairs (jstr "token"), getOrEmpty pairs (jstr "team_id"),
   getOrEmpty pairs (jstr "team_domain"), getOrEmpty pairs (jstr "channel_id"),
   getOrEmpty pairs (jstr "channel_name"), getOrEmpty pairs (jstr "user_id"),
   getOrEmpty pairs (jstr "user_name"), getOrEmpty pairs (jstr "command"),
   getOrEmpty pairs (jstr "text"), getOrEmpty pairs (jstr "response_url"),
   getOrEmpty pairs (jstr "trigger_id")⟩

/-- Source `parseSlashCommandPayload`: parse the body with
`URLSearchParams` and read the known keys. -/
def parseSlashCommandPayload (body : JSString) : SlackSlashCommandPayload :=
  payloadOfPairs (formPairs body)

/-- The list of keys `parseSlashCommandPayload` reads. -/
def knownKeys : List JSString :=
  [jstr "token", jstr "team_id", jstr "team_domain", jstr "channel_id",
   jstr "channel_name", jstr "user_id", jstr "user_name", jstr "command",
   jstr "text", jstr "response_url", jstr "trigger_id"]

/-- Specification-level field lookup: the url-decoded value of the first
raw body segment whose url-decoded name is `key`, or the empty string
when absent (or when the stored value is empty). -/
def specFieldValue (body key : JSString) : JSString :=
  match (rawSegments body).find? (fun seg => decide (formDecodeStr (splitFirstEq seg).1 = key)) with
  | some seg =>
    if (formDecodeStr (splitFirstEq seg).2).isEmpty then []
    else formDecodeStr (splitFirstEq seg).2
  | none => []

/-! ### Response formatter -/

/-- Slack visibility scope of a response. -/
inductive RespType where
  | in_channel
  | ephemeral
deriving DecidableEq

/-- Text object inside a block. -/
structure SlackBlockText where
  type : JSString
  text : JSString
  emoji : Option Bool
deriving DecidableEq

/-- A Slack layout block. -/
structure SlackBlock where
  type : JSString
  text : Option SlackBlockText
  block_id : Option JSString
deriving DecidableEq

/-- A Slack message payload. -/
structure SlackResponse where
  response_type : Option RespType
  text : Option JSString
  blocks : Option (List SlackBlock)
deriving DecidableEq

/-- Source `createSlackResponse`: the success rendering — header section,
reworded text section, divider, original text in a context block. -/
def createSlackResponse (originalMessage rewordedMessage : JSString) : SlackResponse :=
  ⟨some .ephemeral, none, some
    [⟨jstr "section", some ⟨jstr "mrkdwn", jstr "*Your reworded message:*", none⟩, none⟩,
     ⟨jstr "section", some ⟨jstr "mrkdwn", rewordedMessage, none⟩, none⟩,
     ⟨jstr "divider", none, none⟩,
     ⟨jstr "context", some ⟨jstr "mrkdwn",
        jstr "_Original: " ++ originalMessage ++ jstr "_", none⟩, none⟩]⟩

/-- Source `createErrorResponse`: the failure rendering
`{response_type: "ephemeral", text: ":warning: " + message}`. -/
def createErrorResponse (message : JSString) : SlackResponse :=
  ⟨some .ephemeral, some (jstr ":warning: " ++ message), none⟩

/-- The inline acknowledgment body the handler returns for an accepted
request. -/
def ackResponse : SlackResponse :=
  ⟨some .ephemeral, some (jstr "Rewording your message..."), none⟩

/-! ### Request handler and deferred task (`src/api/slack/reword.ts`) -/

/-- A response body produced by the handler: either a bare
`{"error": msg}` JSON object or a serialized `SlackResponse`. -/
inductive RespBody where
  | errorJson (msg : JSString)
  | slackJson (r : SlackResponse)
deriving DecidableEq

/-- What the handler produced synchronously: HTTP status, body, and the
payload captured by `waitUntil(processAndRespond(payload))`, if any. -/
structure HandlerResult where
  status : Nat
  body : RespBody
  scheduled : Option SlackSlashCommandPayload
deriving DecidableEq

/-- The guidance message for empty command text. -/
def emptyTextMessage : JSString :=
  jstr "Please provide a message to reword. Usage: `/reword <your message>`"

/-- The handler of `src/api/slack/reword.ts`: method gate, secret gate,
signature verification, payload parsing, empty-text validation, then
schedule the deferred task and acknowledge.  The handler awaits the
verifier with no try/catch, so a verifier throw propagates and the
handler produces none of its own responses (`none`); the falsy-secret
gate in front makes that path unreachable in practice. -/
def handler (secretEnv : Option JSString) (now : Int) (method : JSString)
    (signature tsHeader : Option JSString) (rawBody : JSString) : Option HandlerResult :=
  if method ≠ jstr "POST" then some ⟨405, .errorJson (jstr "Method not allowed"), none⟩
  else if jsFalsyStr secretEnv then
    some ⟨500, .errorJson (jstr "Server configuration error"), none⟩
  else
    match verifySlackRequestWeb (secretEnv.getD []) signature tsHeader rawBody now with
    | none => none
    | some ok =>
      if !ok then some ⟨401, .errorJson (jstr "Invalid request signature"), none⟩
      else
        let payload := parseSlashCommandPayload rawBody
        if payload.text.isEmpty || (jsTrim payload.text).isEmpty then
          some ⟨200, .slackJson (createErrorResponse emptyTextMessage), none⟩
        else
          some ⟨200, .slackJson ackResponse, some payload⟩

/-- Outcome of `await generateText(...)` (together with the gateway
construction preceding it inside the same `try`): it settles with a
value, settles by throwing, or never settles at all.  The source passes
no `abortSignal` and races no timer, so a never-settling call leaves the
rest of the task unreached. -/
inductive TransformOutcome where
  | ok (reworded : JSString)
  | thrown (message : JSString)
  | hang
deriving DecidableEq

/-- The deferred task `processAndRespond`, as the list of POST attempts
it issues to the callback URL.  `successPostThrows` is the outcome of
the success-path `fetch`: when it rejects, control reaches the `catch`
block, which attempts a failure POST carrying the fetch error's message
`postErrMessage`. -/
def processAndRespond (payload : SlackSlashCommandPayload)
    (outcome : TransformOutcome) (successPostThrows : Bool)
    (postErrMessage : JSString) : List (JSString × SlackResponse) :=
  let originalMessage := jsTrim payload.text
  match outcome with
  | .ok reworded =>
    if successPostThrows then
      [(payload.response_url, createSlackResponse originalMessage reworded),
       (payload.response_url, createErrorResponse (jstr "Error: " ++ postErrMessage))]
    else
      [(payload.response_url, createSlackResponse originalMessage reworded)]
  | .thrown message =>
    [(payload.response_url, createErrorResponse (jstr "Error: " ++ message))]
  | .hang => []

/-- All callback POST attempts a request gives rise to: none unless the
handler completed and scheduled the deferred task. -/
def requestPosts (res : Option HandlerResult) (outcome : TransformOutcome)
    (successPostThrows : Bool) (postErrMessage : JSString) : List (JSString × SlackResponse) :=
  match res with
  | none => []
  | some r =>
    match r.scheduled with
    | none => []
    | some p => processAndRespond p outcome successPostThrows postErrMessage

/-- Flip bit `j` of code unit `i` of a string: the single-bit mutations
claimed about the verifier. -/
def flipBit (i j : Nat) (s : JSString) : JSString :=
  s.set i (s.getD i 0 ^^^ (1 <<< j))

/-! ## Lemmas -/

/-- A bitwise OR of naturals is zero exactly when both are. -/
theorem lorEqZero (a b : Nat) : a ||| b = 0 ↔ a = 0 ∧ b = 0 := by
  constructor
  · intro h
    refine ⟨Nat.eq_of_testBit_eq fun i => ?_, Nat.eq_of_testBit_eq fun i => ?_⟩ <;>
      have hbit := congrArg (fun x => Nat.testBit x i) h <;>
      simp only [Nat.testBit_or, Nat.zero_testBit, Bool.or_eq_false_iff] at hbit <;>
      simp [hbit.1, hbit.2]
  · rintro ⟨rfl, rfl⟩
    rfl

/-- OR-accumulation over a list is zero exactly when the accumulator and
every element are zero. -/
theorem foldlLorEqZero (l : List Nat) :
    ∀ x, (l.foldl (fun r y => r ||| y) x = 0 ↔ x = 0 ∧ ∀ y ∈ l, y = 0) := by
  induction l with
  | nil => simp
  | cons a t ih =>
    intro x
    rw [List.foldl_cons, ih, lorEqZero]
    constructor
    · rintro ⟨⟨hx, ha⟩, ht⟩
      exact ⟨hx, by simpa [ha] using ht⟩
    · rintro ⟨hx, hall⟩
      refine ⟨⟨hx, hall a (by simp)⟩, fun y hy => hall y (by simp [hy])⟩

/-- The pointwise XOR of two equally long lists vanishes exactly when
the lists are equal. -/
theorem zipWithXorZero :
    ∀ a b : List Nat, a.length = b.length →
      ((∀ y ∈ List.zipWith (fun x y => x ^^^ y) a b, y = 0) ↔ a = b) := by
  intro a
  induction a with
  | nil =>
    intro b h
    cases b with
    | nil => simp
    | cons y u => simp at h
  | cons x t ih =>
    intro b h
    cases b with
    | nil => simp at h
    | cons y u =>
      rw [List.zipWith_cons_cons]
      simp only [List.mem_cons, List.cons.injEq]
      constructor
      · intro hall
        have hx : x = y := Nat.xor_eq_zero.mp (hall _ (Or.inl rfl))
        have ht : t = u := (ih u (by simpa using h)).mp fun y hy => hall y (Or.inr hy)
        exact ⟨hx, ht⟩
      · rintro ⟨h1, h2⟩
        subst h1
        subst h2
        intro z hz
        rcases hz with rfl | hz
        · exact Nat.xor_self x
        · exact ((ih t rfl).mpr rfl) z hz

/-- C6: the verifier's comparison: `timingSafeEqual` first requires
equal lengths and then XOR-accumulates every character position; as a
function it decides exactly string equality. -/
theorem claim_C6_timingSafeEqual_iff_eq (a b : JSString) :
    timingSafeEqualStr a b = true ↔ a = b := by
  unfold timingSafeEqualStr
  by_cases h : a.length = b.length
  · rw [if_neg (by simpa using h), decide_eq_true_eq, foldlLorEqZero,
      zipWithXorZero a b h]
    constructor
    · rintro ⟨-, h2⟩
      exact h2
    · intro h2
      exact ⟨rfl, h2⟩
  · rw [if_pos (by simpa using h)]
    constructor
    · intro hfalse
      exact absurd hfalse (by simp)
    · intro hab
      exact absurd (congrArg List.length hab) h

/-- The comparison `timingSafeEqualStr` as a `decide`. -/
theorem timingSafeEqualStrEqDecide (a b : JSString) :
    timingSafeEqualStr a b = decide (a = b) := by
  rw [Bool.eq_iff_iff, claim_C6_timingSafeEqual_iff_eq, decide_eq_true_eq]

/-! ### Single-bit mutations and verifier facts -/

/-- Flipping a bit preserves the length. -/
theorem flipBitLength (i j : Nat) (s : JSString) : (flipBit i j s).length = s.length :=
  List.length_set s i _

/-- Flipping a bit of an existing code unit changes the string. -/
theorem flipBitNe (i j : Nat) (s : JSString) (h : i < s.length) : flipBit i j s ≠ s := by
  intro heq
  have h1 : (flipBit i j s)[i]? = some (s.getD i 0 ^^^ (1 <<< j)) := by
    simp [flipBit, List.getElem?_set, h]
  rw [heq, List.getElem?_eq_getElem h, List.getD_eq_getElem _ _ h] at h1
  have h3 := congrArg (fun x => Nat.testBit x j) (Option.some.inj h1)
  simp [Nat.testBit_xor, Nat.shiftLeft_eq, Nat.testBit_two_pow_self] at h3

/-- Parsing the empty string gives NaN. -/
theorem jsParseInt10Nil : jsParseInt10 [] = none := rfl

/-- A string `parseInt` accepts is nonempty. -/
theorem parseIntSomeNeNil {ts : JSString} {v : Int} (h : jsParseInt10 ts = some v) :
    ts.isEmpty = false := by
  cases ts with
  | nil => rw [jsParseInt10Nil] at h; exact absurd h (by simp)
  | cons c r => rfl

/-- The expected signature starts with `v0=`, hence is nonempty. -/
theorem expectedSignatureNeNil (secret ts body : JSString) :
    (expectedSignature secret ts body).isEmpty = false := rfl

/-- The first byte of a multi-byte UTF-8 chunk is at least 0x80. -/
theorem utf8ChunkHead (c : Nat) : ∃ d rest, utf8Chunk c = d :: rest ∧ 128 ≤ d := by
  unfold utf8Chunk
  by_cases h1 : c < 2048
  · exact ⟨_, _, if_pos h1, by omega⟩
  · rw [if_neg h1]
    by_cases h2 : c < 65536
    · exact ⟨_, _, if_pos h2, by omega⟩
    · exact ⟨_, _, if_neg h2, by omega⟩

/-- UTF-8 encoding yields an empty byte sequence exactly for the empty
string, so the zero-length-key throw of `importKey` fires exactly for an
empty signing secret. -/
theorem utf8EncodeIsEmpty (s : JSString) : (utf8Encode s).isEmpty = s.isEmpty := by
  induction s using utf8Encode.induct with
  | case1 => rfl
  | case2 c hc => simp [utf8Encode, hc]
  | case3 c hc hhi => simp [utf8Encode, hc, hhi, replacementBytes]
  | case4 c hc hhi hlo => simp [utf8Encode, hc, hhi, hlo, replacementBytes]
  | case5 c hc hhi hlo =>
    obtain ⟨d, rest, hchunk, _⟩ := utf8ChunkHead c
    simp [utf8Encode, hc, hhi, hlo, hchunk]
  | case6 c c2 rest hc ih => simp [utf8Encode, hc]
  | case7 c c2 rest hc hhi hlo ih =>
    obtain ⟨d, r2, hchunk, _⟩ := utf8ChunkHead (65536 + (c - 55296) * 1024 + (c2 - 56320))
    simp [utf8Encode, hc, hhi, hlo, hchunk]
  | case8 c c2 rest hc hhi hlo ih => simp [utf8Encode, hc, hhi, hlo, replacementBytes]
  | case9 c c2 rest hc hhi hlo ih => simp [utf8Encode, hc, hhi, hlo, replacementBytes]
  | case10 c c2 rest hc hhi hlo ih =>
    obtain ⟨d, r2, hchunk, _⟩ := utf8ChunkHead c
    simp [utf8Encode, hc, hhi, hlo, hchunk]

/-- A nonempty signing secret UTF-8 encodes to a nonempty key. -/
theorem encodedSecretNeNil {secret : JSString} (hsec : secret ≠ []) :
    (utf8Encode secret).isEmpty = false := by
  rw [utf8EncodeIsEmpty]
  simpa [List.isEmpty_iff] using hsec

/-- The verifier with both headers present and nonempty. -/
theorem verifyWebEval (secret sig ts body : JSString) (now : Int)
    (hsig : sig.isEmpty = false) (hts : ts.isEmpty = false) :
    verifySlackRequestWeb secret (some sig) (some ts) body now =
      if staleTimestamp now ts then some false
      else if (utf8Encode secret).isEmpty then none
      else some (timingSafeEqualStr sig (expectedSignature secret ts body)) := by
  unfold verifySlackRequestWeb jsFalsyStr
  simp [hsig, hts]

/-- When `parseInt` accepts the timestamp, the replay-window test is a
plain comparison. -/
theorem staleTimestampEval {ts : JSString} {v : Int} (now : Int)
    (h : jsParseInt10 ts = some v) :
    staleTimestamp now ts = decide (300 < (now - v).natAbs) := by
  unfold staleTimestamp
  rw [h]

/-- A request carrying the correctly computed signature and an in-window
timestamp verifies, for a nonempty secret. -/
theorem verifyCorrectSig (secret ts body : JSString) (now v : Int)
    (hsec : secret ≠ [])
    (h1 : jsParseInt10 ts = some v) (h2 : (now - v).natAbs ≤ 300) :
    verifySlackRequestWeb secret (some (expectedSignature secret ts body))
      (some ts) body now = some true := by
  rw [verifyWebEval secret _ ts body now (expectedSignatureNeNil secret ts body)
      (parseIntSomeNeNil h1), staleTimestampEval now h1]
  have hst : decide (300 < (now - v).natAbs) = false := by
    simp only [decide_eq_false_iff_not, not_lt]
    exact h2
  rw [hst, if_neg (by simp), if_neg (by simp [encodedSecretNeNil hsec]),
    timingSafeEqualStrEqDecide]
  simp

/-- A signature differing from the expected one is rejected (headers
present, nonempty secret). -/
theorem verifyWrongSig (secret sig ts body : JSString) (now : Int)
    (hsec : secret ≠ [])
    (hsig : sig.isEmpty = false)
    (hts : ts.isEmpty = false)
    (hne : sig ≠ expectedSignature secret ts body) :
    verifySlackRequestWeb secret (some sig) (some ts) body now = some false := by
  rw [verifyWebEval secret sig ts body now hsig hts]
  by_cases hstale : staleTimestamp now ts = true
  · rw [if_pos hstale]
  · rw [if_neg hstale, if_neg (by simp [encodedSecretNeNil hsec]),
      timingSafeEqualStrEqDecide]
    simpa using hne

/-- Different HMAC digests give different expected signature strings. -/
theorem expectedSignatureInj {secret ts ts2 body body2 : JSString}
    (h : hmacSha256Hex secret (sigBasestring ts body) ≠
      hmacSha256Hex secret (sigBasestring ts2 body2)) :
    expectedSignature secret ts body ≠ expectedSignature secret ts2 body2 := by
  intro he
  unfold expectedSignature at he
  exact h (List.append_cancel_left he)

/-- A string with the length of a nonempty string is nonempty. -/
theorem isEmptyFalseOfLengthEq {a b : JSString} (hlen : a.length = b.length)
    (hb : b.isEmpty = false) : a.isEmpty = false := by
  cases a with
  | nil =>
    cases b with
    | nil => exact hb
    | cons c r => exact absurd hlen (by simp)
  | cons c r => rfl

/-- C1 (counterexample to the claim as stated): at the empty secret,
with the in-window timestamp `"0"` at clock 0 and the signature header
equal to `"v0=" + hex(HMAC-SHA256("", "v0:0:b"))` exactly as the claim
describes, the WebCrypto verifier does not return true: `importKey`
throws DataError on the zero-length key, so the call rejects. -/
theorem claim_C1_counterexample :
    jsParseInt10 (jstr "0") = some 0 ∧ ((0 : Int) - 0).natAbs ≤ 300 ∧
    verifySlackRequestWeb (jstr "")
      (some (expectedSignature (jstr "") (jstr "0") (jstr "b")))
      (some (jstr "0")) (jstr "b") 0 = none := by
  refine ⟨by decide, by decide, ?_⟩
  rw [verifyWebEval (jstr "") _ (jstr "0") (jstr "b") 0
    (expectedSignatureNeNil (jstr "") (jstr "0") (jstr "b")) rfl]
  rw [show staleTimestamp 0 (jstr "0") = false from by decide, if_neg (by simp)]
  rw [if_pos (by decide)]

/-- C1 (amended): for every nonempty secret — the WebCrypto key import
throws on an empty one — body, and timestamp whose integer value is
within 300 seconds of the clock, the verifier accepts the correctly
computed `"v0=" + hex(HMAC-SHA256(secret, "v0:" + ts + ":" + body))`
signature; every single-bit mutation of that signature is rejected
unconditionally, and every single-bit mutation of the body or of the
timestamp is rejected whenever the mutated base string's HMAC digest
differs from the original one (the standard second-preimage property of
HMAC-SHA256 instantiated at this pair). -/
theorem claim_C1_verify_accepts_and_rejects_mutations (secret body ts : JSString)
    (now v : Int) (hsec : secret ≠ [])
    (h1 : jsParseInt10 ts = some v) (h2 : (now - v).natAbs ≤ 300) :
    verifySlackRequestWeb secret (some (expectedSignature secret ts body))
      (some ts) body now = some true
    ∧ (∀ i j, i < (expectedSignature secret ts body).length → j < 16 →
        verifySlackRequestWeb secret (some (flipBit i j (expectedSignature secret ts body)))
          (some ts) body now = some false)
    ∧ (∀ i j, i < body.length → j < 16 →
        hmacSha256Hex secret (sigBasestring ts (flipBit i j body)) ≠
          hmacSha256Hex secret (sigBasestring ts body) →
        verifySlackRequestWeb secret (some (expectedSignature secret ts body))
          (some ts) (flipBit i j body) now = some false)
    ∧ (∀ i j, i < ts.length → j < 16 →
        hmacSha256Hex secret (sigBasestring (flipBit i j ts) body) ≠
          hmacSha256Hex secret (sigBasestring ts body) →
        verifySlackRequestWeb secret (some (expectedSignature secret ts body))
          (some (flipBit i j ts)) body now = some false) := by
  refine ⟨verifyCorrectSig secret ts body now v hsec h1 h2, ?_, ?_, ?_⟩
  · intro i j hi _
    exact verifyWrongSig secret _ ts body now hsec
      (isEmptyFalseOfLengthEq (flipBitLength i j _) (expectedSignatureNeNil secret ts body))
      (parseIntSomeNeNil h1) (flipBitNe i j _ hi)
  · intro i j _ _ hh
    exact verifyWrongSig secret _ ts (flipBit i j body) now hsec
      (expectedSignatureNeNil secret ts body) (parseIntSomeNeNil h1)
      (expectedSignatureInj (fun he => hh he.symm))
  · intro i j hi _ hh
    exact verifyWrongSig secret _ (flipBit i j ts) body now hsec
      (expectedSignatureNeNil secret ts body)
      (isEmptyFalseOfLengthEq (flipBitLength i j ts) (parseIntSomeNeNil h1))
      (expectedSignatureInj (fun he => hh he.symm))

/-- Witness for C1 at secret `"s"`, body `"b"`, timestamp `"0"`, clock 0. -/
theorem claim_C1_witness :
    (jstr "s" ≠ []) ∧
    jsParseInt10 (jstr "0") = some 0 ∧ ((0 : Int) - 0).natAbs ≤ 300 ∧
    (verifySlackRequestWeb (jstr "s")
        (some (expectedSignature (jstr "s") (jstr "0") (jstr "b")))
        (some (jstr "0")) (jstr "b") 0 = some true
      ∧ (∀ i j, i < (expectedSignature (jstr "s") (jstr "0") (jstr "b")).length → j < 16 →
          verifySlackRequestWeb (jstr "s")
            (some (flipBit i j (expectedSignature (jstr "s") (jstr "0") (jstr "b"))))
            (some (jstr "0")) (jstr "b") 0 = some false)
      ∧ (∀ i j, i < (jstr "b").length → j < 16 →
          hmacSha256Hex (jstr "s") (sigBasestring (jstr "0") (flipBit i j (jstr "b"))) ≠
            hmacSha256Hex (jstr "s") (sigBasestring (jstr "0") (jstr "b")) →
          verifySlackRequestWeb (jstr "s")
            (some (expectedSignature (jstr "s") (jstr "0") (jstr "b")))
            (some (jstr "0")) (flipBit i j (jstr "b")) 0 = some false)
      ∧ (∀ i j, i < (jstr "0").length → j < 16 →
          hmacSha256Hex (jstr "s") (sigBasestring (flipBit i j (jstr "0")) (jstr "b")) ≠
            hmacSha256Hex (jstr "s") (sigBasestring (jstr "0") (jstr "b")) →
          verifySlackRequestWeb (jstr "s")
            (some (expectedSignature (jstr "s") (jstr "0") (jstr "b")))
            (some (flipBit i j (jstr "0"))) (jstr "b") 0 = some false)) :=
  ⟨by decide, by decide, by decide,
    claim_C1_verify_accepts_and_rejects_mutations (jstr "s") (jstr "b") (jstr "0") 0 0
      (by decide) (by decide) (by decide)⟩

/-- C4: a timestamp whose integer value is more than 300 seconds
from the clock in either direction is rejected, for every supplied
signature — including the correctly computed one. -/
theorem claim_C4_stale_timestamp_rejected (secret : JSString) (sig : Option JSString)
    (ts body : JSString) (now v : Int)
    (h1 : jsParseInt10 ts = some v) (h2 : 300 < (now - v).natAbs) :
    verifySlackRequestWeb secret sig (some ts) body now = some false := by
  cases sig with
  | none => rfl
  | some s =>
    by_cases hs : s.isEmpty
    · unfold verifySlackRequestWeb jsFalsyStr
      simp [hs]
    · rw [verifyWebEval secret s ts body now (by simpa using hs) (parseIntSomeNeNil h1),
        staleTimestampEval now h1, if_pos (by simpa using h2)]

/-- Witness for C4: timestamp `"1000"` at clock 0, carrying the
correctly computed signature. -/
theorem claim_C4_witness :
    jsParseInt10 (jstr "1000") = some 1000 ∧ (300 : Nat) < ((0 : Int) - 1000).natAbs ∧
    verifySlackRequestWeb (jstr "s")
      (some (expectedSignature (jstr "s") (jstr "1000") (jstr "b")))
      (some (jstr "1000")) (jstr "b") 0 = some false :=
  ⟨by decide, by decide,
    claim_C4_stale_timestamp_rejected (jstr "s")
      (some (expectedSignature (jstr "s") (jstr "1000") (jstr "b")))
      (jstr "1000") (jstr "b") 0 1000 (by decide) (by decide)⟩

/-- C5 (divergence): an unparseable timestamp header is *not*
rejected: `parseInt` yields NaN, the JavaScript comparison
`Math.abs(now - NaN) > 300` is false, so the replay-window guard never
fires and the verifier goes on to accept a correctly signed request with
timestamp header `"x"` at any clock time. -/
theorem claim_C5_unparseable_timestamp_accepted :
    jsParseInt10 (jstr "x") = none ∧
    verifySlackRequestWeb (jstr "s")
      (some (expectedSignature (jstr "s") (jstr "x") (jstr "b")))
      (some (jstr "x")) (jstr "b") 12345 = some true := by
  refine ⟨by decide, ?_⟩
  rw [verifyWebEval (jstr "s") _ (jstr "x") (jstr "b") 12345
    (expectedSignatureNeNil (jstr "s") (jstr "x") (jstr "b")) rfl]
  rw [show staleTimestamp 12345 (jstr "x") = false from rfl, if_neg (by simp),
    if_neg (by simp [encodedSecretNeNil (show jstr "s" ≠ [] from by decide)]),
    timingSafeEqualStrEqDecide]
  simp

/-! ### Formatter, handler and dispatcher claims -/

/-- C9: every outbound rendering — acknowledgment, success, and
failure — is ephemeral and never broadcast to the channel, and the
failure rendering's text is the warning marker followed by the supplied
message verbatim. -/
theorem claim_C9_renderings_ephemeral (o r m : JSString) :
    (createSlackResponse o r).response_type = some RespType.ephemeral
    ∧ (createErrorResponse m).response_type = some RespType.ephemeral
    ∧ ackResponse.response_type = some RespType.ephemeral
    ∧ (createSlackResponse o r).response_type ≠ some RespType.in_channel
    ∧ (createErrorResponse m).response_type ≠ some RespType.in_channel
    ∧ ackResponse.response_type ≠ some RespType.in_channel
    ∧ (createErrorResponse m).text = some (jstr ":warning: " ++ m) :=
  ⟨rfl, rfl, rfl, by simp [createSlackResponse], by simp [createErrorResponse],
   by simp [ackResponse], rfl⟩

/-- C2: a request that passes signature verification and whose
parsed text trims to empty is answered synchronously with HTTP 200 and
the failure rendering of the guidance message; the deferred task is not
scheduled and no callback POST attempt can arise from the request. -/
theorem claim_C2_empty_text_short_circuits (secret : JSString) (now : Int)
    (sig tsH : Option JSString) (body : JSString)
    (hsecret : secret ≠ [])
    (hverify : verifySlackRequestWeb secret sig tsH body now = some true)
    (htext : jsTrim (parseSlashCommandPayload body).text = []) :
    handler (some secret) now (jstr "POST") sig tsH body =
      some ⟨200, RespBody.slackJson (createErrorResponse emptyTextMessage), none⟩
    ∧ ∀ outcome postThrows postErr,
        requestPosts (handler (some secret) now (jstr "POST") sig tsH body)
          outcome postThrows postErr = [] := by
  have hres : handler (some secret) now (jstr "POST") sig tsH body =
      some ⟨200, RespBody.slackJson (createErrorResponse emptyTextMessage), none⟩ := by
    unfold handler
    simp [jsFalsyStr, List.isEmpty_iff, hsecret, hverify, htext]
  exact ⟨hres, fun outcome postThrows postErr => by rw [hres]; rfl⟩

/-- Witness for C2: empty body, correctly signed, at clock 0. -/
theorem claim_C2_witness :
    (jstr "s" ≠ []) ∧
    verifySlackRequestWeb (jstr "s")
      (some (expectedSignature (jstr "s") (jstr "0") (jstr "")))
      (some (jstr "0")) (jstr "") 0 = some true ∧
    jsTrim (parseSlashCommandPayload (jstr "")).text = [] ∧
    (handler (some (jstr "s")) 0 (jstr "POST")
        (some (expectedSignature (jstr "s") (jstr "0") (jstr "")))
        (some (jstr "0")) (jstr "") =
        some ⟨200, RespBody.slackJson (createErrorResponse emptyTextMessage), none⟩
      ∧ ∀ outcome postThrows postErr,
          requestPosts (handler (some (jstr "s")) 0 (jstr "POST")
            (some (expectedSignature (jstr "s") (jstr "0") (jstr "")))
            (some (jstr "0")) (jstr "")) outcome postThrows postErr = []) :=
  ⟨by decide,
   verifyCorrectSig (jstr "s") (jstr "0") (jstr "") 0 0 (by decide) (by decide) (by decide),
   by decide,
   claim_C2_empty_text_short_circuits (jstr "s") 0
     (some (expectedSignature (jstr "s") (jstr "0") (jstr ""))) (some (jstr "0")) (jstr "")
     (by decide)
     (verifyCorrectSig (jstr "s") (jstr "0") (jstr "") 0 0 (by decide) (by decide) (by decide))
     (by decide)⟩

/-- C3: for every accepted request (one for which the handler
scheduled the deferred task), whenever the transform call settles — with
a value or by throwing — and the success-path POST does not itself
reject, the deferred task issues exactly one POST to the payload's
callback URL, carrying either the success rendering of the trimmed text
or a failure rendering. -/
theorem claim_C3_exactly_one_terminal_post (secretEnv : Option JSString) (now : Int)
    (method : JSString) (sig tsH : Option JSString) (body : JSString)
    (p : SlackSlashCommandPayload) (outcome : TransformOutcome) (postErr : JSString)
    (_hacc : ((handler secretEnv now method sig tsH body).bind
      (fun r => r.scheduled)) = some p)
    (hsettle : outcome ≠ TransformOutcome.hang) :
    ∃ r, processAndRespond p outcome false postErr = [(p.response_url, r)]
      ∧ ((∃ t, r = createSlackResponse (jsTrim p.text) t)
        ∨ ∃ e, r = createErrorResponse (jstr "Error: " ++ e)) := by
  cases outcome with
  | ok t => exact ⟨_, rfl, Or.inl ⟨t, rfl⟩⟩
  | thrown e => exact ⟨_, rfl, Or.inr ⟨e, rfl⟩⟩
  | hang => exact absurd rfl hsettle

set_option maxRecDepth 100000

/-- Witness for C3: a correctly signed request with text `"hi"`,
transform settling successfully. -/
theorem claim_C3_witness :
    ((handler (some (jstr "s")) 0 (jstr "POST")
        (some (expectedSignature (jstr "s") (jstr "0") (jstr "text=hi")))
        (some (jstr "0")) (jstr "text=hi")).bind (fun r => r.scheduled)) =
      some (parseSlashCommandPayload (jstr "text=hi")) ∧
    (TransformOutcome.ok (jstr "done") ≠ TransformOutcome.hang) ∧
    ∃ r, processAndRespond (parseSlashCommandPayload (jstr "text=hi"))
        (TransformOutcome.ok (jstr "done")) false [] =
        [((parseSlashCommandPayload (jstr "text=hi")).response_url, r)]
      ∧ ((∃ t, r = createSlackResponse (jsTrim (parseSlashCommandPayload (jstr "text=hi")).text) t)
        ∨ ∃ e, r = createErrorResponse (jstr "Error: " ++ e)) :=
  ⟨by decide, by decide,
   claim_C3_exactly_one_terminal_post (some (jstr "s")) 0 (jstr "POST")
     (some (expectedSignature (jstr "s") (jstr "0") (jstr "text=hi")))
     (some (jstr "0")) (jstr "text=hi") (parseSlashCommandPayload (jstr "text=hi"))
     (TransformOutcome.ok (jstr "done")) [] (by decide) (by decide)⟩

/-- C8 (divergence): the deferred task sets no internal timeout on
the transform call: when the call never settles (exceeds every finite
budget), nothing is posted to the callback URL — no Failure rendering
ever goes out, at the concrete accepted payload
`text=hello&response_url=https%3A%2F%2Fx`. -/
theorem claim_C8_hang_posts_nothing :
    processAndRespond
      (parseSlashCommandPayload (jstr "text=hello&response_url=https%3A%2F%2Fx"))
      TransformOutcome.hang false [] = [] := rfl

/-! ### UTF-8 facts and the equivalence of the two verifiers -/

/-- UTF-8 encoding is the identity on ASCII strings. -/
theorem utf8EncodeAscii : ∀ {s : List Nat}, (∀ c ∈ s, c < 128) → utf8Encode s = s := by
  intro s
  induction s with
  | nil => intro _; rfl
  | cons c rest ih =>
    intro h
    have hc : c < 128 := h c (by simp)
    cases rest with
    | nil => simp [utf8Encode, hc]
    | cons c2 r2 =>
      rw [show utf8Encode (c :: c2 :: r2) = c :: utf8Encode (c2 :: r2) from by
        simp [utf8Encode, hc]]
      rw [ih fun x hx => h x (by simp [hx])]

/-- A UTF-8 encoding equal to a list of ASCII code units forces the
encoded string to be that very list (every non-ASCII unit would
contribute a first byte of at least 0x80). -/
theorem utf8EncodeInjAscii :
    ∀ (a b : List Nat), (∀ c ∈ b, c < 128) → utf8Encode a = b → a = b := by
  intro a
  induction a using utf8Encode.induct with
  | case1 =>
    intro b _ h
    rw [← h]
    rfl
  | case2 c hc =>
    intro b _ h
    rw [← h]
    simp [utf8Encode, hc]
  | case3 c hc hhi =>
    intro b hb h
    have hmem : (239 : Nat) ∈ b := by
      rw [← h]
      simp [utf8Encode, hc, hhi, replacementBytes]
    exact absurd (hb 239 hmem) (by omega)
  | case4 c hc hhi hlo =>
    intro b hb h
    have hmem : (239 : Nat) ∈ b := by
      rw [← h]
      simp [utf8Encode, hc, hhi, hlo, replacementBytes]
    exact absurd (hb 239 hmem) (by omega)
  | case5 c hc hhi hlo =>
    intro b hb h
    obtain ⟨d, rest, hchunk, hd⟩ := utf8ChunkHead c
    have hmem : d ∈ b := by
      rw [← h]
      simp [utf8Encode, hc, hhi, hlo, hchunk]
    exact absurd (hb d hmem) (by omega)
  | case6 c c2 rest hc ih =>
    intro b hb h
    rw [show utf8Encode (c :: c2 :: rest) = c :: utf8Encode (c2 :: rest) from by
      simp [utf8Encode, hc]] at h
    cases b with
    | nil => exact absurd h (by simp)
    | cons d bs =>
      obtain ⟨hcd, htail⟩ := List.cons.injEq .. ▸ h
      rw [hcd, ih bs (fun x hx => hb x (by simp [hx])) htail]
  | case7 c c2 rest hc hhi hlo ih =>
    intro b hb h
    rw [show utf8Encode (c :: c2 :: rest) =
        utf8Chunk (65536 + (c - 55296) * 1024 + (c2 - 56320)) ++ utf8Encode rest from by
      simp [utf8Encode, hc, hhi, hlo]] at h
    obtain ⟨d, r2, hchunk, hd⟩ := utf8ChunkHead (65536 + (c - 55296) * 1024 + (c2 - 56320))
    have hmem : d ∈ b := by
      rw [← h, hchunk]
      simp
    exact absurd (hb d hmem) (by omega)
  | case8 c c2 rest hc hhi hlo ih =>
    intro b hb h
    rw [show utf8Encode (c :: c2 :: rest) = replacementBytes ++ utf8Encode (c2 :: rest) from by
      simp [utf8Encode, hc, hhi, hlo]] at h
    have hmem : (239 : Nat) ∈ b := by
      rw [← h]
      simp [replacementBytes]
    exact absurd (hb 239 hmem) (by omega)
  | case9 c c2 rest hc hhi hlo ih =>
    intro b hb h
    rw [show utf8Encode (c :: c2 :: rest) = replacementBytes ++ utf8Encode (c2 :: rest) from by
      simp [utf8Encode, hc, hhi, hlo]] at h
    have hmem : (239 : Nat) ∈ b := by
      rw [← h]
      simp [replacementBytes]
    exact absurd (hb 239 hmem) (by omega)
  | case10 c c2 rest hc hhi hlo ih =>
    intro b hb h
    rw [show utf8Encode (c :: c2 :: rest) = utf8Chunk c ++ utf8Encode (c2 :: rest) from by
      simp [utf8Encode, hc, hhi, hlo]] at h
    obtain ⟨d, r2, hchunk, hd⟩ := utf8ChunkHead c
    have hmem : d ∈ b := by
      rw [← h, hchunk]
      simp
    exact absurd (hb d hmem) (by omega)

/-- A hex digit of a value below 16 is an ASCII code unit. -/
theorem hexDigitLt {n : Nat} (h : n < 16) : hexDigit n < 128 := by
  unfold hexDigit
  split <;> omega

/-- Hex renderings consist of ASCII code units only. -/
theorem toHexStrAscii (bytes : List Nat) : ∀ c ∈ toHexStr bytes, c < 128 := by
  induction bytes with
  | nil => simp [toHexStr]
  | cons b t ih =>
    intro c hc
    rw [show toHexStr (b :: t) = hexByte b ++ toHexStr t from rfl] at hc
    rcases List.mem_append.mp hc with hc | hc
    · simp only [hexByte, List.mem_cons, List.not_mem_nil, or_false] at hc
      rcases hc with rfl | rfl
      · exact hexDigitLt (Nat.mod_lt _ (by omega))
      · exact hexDigitLt (Nat.mod_lt _ (by omega))
    · exact ih c hc

/-- The expected signature string is pure ASCII. -/
theorem expectedSignatureAscii (secret ts body : JSString) :
    ∀ c ∈ expectedSignature secret ts body, c < 128 := by
  intro c hc
  unfold expectedSignature at hc
  rcases List.mem_append.mp hc with hc | hc
  · rw [show jstr "v0=" = [118, 48, 61] from rfl] at hc
    simp only [List.mem_cons, List.not_mem_nil, or_false] at hc
    rcases hc with rfl | rfl | rfl <;> omega
  · exact toHexStrAscii _ c hc

/-- Node's buffer comparison with its caught length exception, as a
single decision of byte equality. -/
theorem timingSafeEqualNodeGetD (x y : List Nat) :
    (timingSafeEqualNode x y).getD false = decide (x = y) := by
  unfold timingSafeEqualNode
  by_cases h : x.length = y.length
  · rw [if_neg (by simpa using h)]
    rfl
  · rw [if_pos (by simpa using h)]
    simp only [Option.getD_none]
    symm
    simp only [decide_eq_false_iff_not]
    intro he
    exact h (congrArg List.length he)

/-- C10 (counterexample to the claim as stated): the two verifier
variants do not return the same boolean on every input.  At the empty
secret, with an in-window timestamp and the mathematically correct
empty-key HMAC signature, Node's `createHmac` accepts the empty key and
the Node variant returns true, while the WebCrypto variant's
`importKey` throws DataError and returns no boolean at all. -/
theorem claim_C10_counterexample :
    verifySlackRequestNode (jstr "")
      (some (expectedSignature (jstr "") (jstr "0") (jstr "b")))
      (some (jstr "0")) (jstr "b") 0 = true ∧
    verifySlackRequestWeb (jstr "")
      (some (expectedSignature (jstr "") (jstr "0") (jstr "b")))
      (some (jstr "0")) (jstr "b") 0 = none := by
  constructor
  · decide
  · rw [verifyWebEval (jstr "") _ (jstr "0") (jstr "b") 0
      (expectedSignatureNeNil (jstr "") (jstr "0") (jstr "b")) rfl]
    rw [show staleTimestamp 0 (jstr "0") = false from by decide, if_neg (by simp)]
    rw [if_pos (by decide)]

/-- C10 (amended): on every input with a nonempty secret — that is, on
every input where the WebCrypto variant returns at all instead of
throwing DataError from `importKey` — the synchronous Node-crypto
verifier and the asynchronous WebCrypto verifier return the same
boolean, evaluated at the same clock time. -/
theorem claim_C10_node_web_equivalent (secret : JSString) (sig tsH : Option JSString)
    (body : JSString) (now : Int) (hsec : secret ≠ []) :
    verifySlackRequestWeb secret sig tsH body now =
      some (verifySlackRequestNode secret sig tsH body now) := by
  unfold verifySlackRequestNode verifySlackRequestWeb
  by_cases h1 : (jsFalsyStr sig || jsFalsyStr tsH) = true
  · rw [if_pos h1, if_pos h1]
  · rw [if_neg h1, if_neg h1]
    by_cases h2 : staleTimestamp now (tsH.getD []) = true
    · rw [if_pos h2, if_pos h2]
    · rw [if_neg h2, if_neg h2, if_neg (by simp [encodedSecretNeNil hsec])]
      congr 1
      rw [timingSafeEqualNodeGetD, timingSafeEqualStrEqDecide, decide_eq_decide]
      have hasc := expectedSignatureAscii secret (tsH.getD []) body
      constructor
      · intro he
        rw [he]
      · intro he
        rw [utf8EncodeAscii hasc] at he
        exact utf8EncodeInjAscii _ _ hasc he

/-! ### Parser claims -/

/-- Looking a key up among the decoded pairs is the same as finding the
first raw segment whose decoded name matches. -/
theorem findMapSnd (l : List (List Nat)) (k : JSString) :
    ((l.map (fun seg => (formDecodeStr (splitFirstEq seg).1,
        formDecodeStr (splitFirstEq seg).2))).find? (fun p => decide (p.1 = k))) =
      (l.find? (fun seg => decide (formDecodeStr (splitFirstEq seg).1 = k))).map
        (fun seg => (formDecodeStr (splitFirstEq seg).1, formDecodeStr (splitFirstEq seg).2)) := by
  induction l with
  | nil => rfl
  | cons seg t ih =>
    by_cases h : formDecodeStr (splitFirstEq seg).1 = k
    · rw [List.map_cons, List.find?_cons_of_pos _ (by simp [h]),
        List.find?_cons_of_pos _ (by simp [h])]
      rfl
    · rw [List.map_cons, List.find?_cons_of_neg _ (by simp [h]),
        List.find?_cons_of_neg _ (by simp [h]), ih]

/-- Reading a known key from the parsed parameters gives exactly the
specification-level decoded field value. -/
theorem getOrEmptyEqSpec (body k : JSString) :
    getOrEmpty (formPairs body) k = specFieldValue body k := by
  unfold getOrEmpty paramsGet formPairs specFieldValue
  rw [findMapSnd]
  cases hfind : (rawSegments body).find?
      (fun seg => decide (formDecodeStr (splitFirstEq seg).1 = k)) with
  | none => rfl
  | some seg => rfl

/-- A pair whose name is not the looked-up key is invisible to the
lookup, wherever it sits in the pair list. -/
theorem findSkipPair (pre post : List (JSString × JSString)) (kv : JSString × JSString)
    (key : JSString) (h : kv.1 ≠ key) :
    ((pre ++ kv :: post).find? (fun p => decide (p.1 = key))) =
      ((pre ++ post).find? (fun p => decide (p.1 = key))) := by
  induction pre with
  | nil =>
    rw [List.nil_append, List.nil_append, List.find?_cons_of_neg _ (by simp [h])]
  | cons a t ih =>
    by_cases ha : a.1 = key
    · rw [List.cons_append, List.cons_append, List.find?_cons_of_pos _ (by simp [ha]),
        List.find?_cons_of_pos _ (by simp [ha])]
    · rw [List.cons_append, List.cons_append, List.find?_cons_of_neg _ (by simp [ha]),
        List.find?_cons_of_neg _ (by simp [ha]), ih]

/-- A pair with an unknown name does not change the parsed payload. -/
theorem payloadOfPairsSkip (pre post : List (JSString × JSString)) (k v : JSString)
    (hk : k ∉ knownKeys) :
    payloadOfPairs (pre ++ (k, v) :: post) = payloadOfPairs (pre ++ post) := by
  have hG : ∀ key, key ∈ knownKeys →
      getOrEmpty (pre ++ (k, v) :: post) key = getOrEmpty (pre ++ post) key := by
    intro key hkey
    unfold getOrEmpty paramsGet
    rw [findSkipPair pre post (k, v) key (fun heq => hk ((show k = key from heq) ▸ hkey))]
  unfold payloadOfPairs
  simp only [SlackSlashCommandPayload.mk.injEq]
  exact ⟨hG _ (by decide), hG _ (by decide), hG _ (by decide), hG _ (by decide),
    hG _ (by decide), hG _ (by decide), hG _ (by decide), hG _ (by decide),
    hG _ (by decide), hG _ (by decide), hG _ (by decide)⟩

/-- C7: the payload parser never fails: every body yields a payload
whose every field is the url-decoded value stored under its key (empty
when absent), the empty body yields all-empty fields, unknown keys are
ignored, and the worked example decodes as specified. -/
theorem claim_C7_parser_fields (body k v : JSString)
    (pre post : List (JSString × JSString)) (hk : k ∉ knownKeys) :
    parseSlashCommandPayload (jstr "") = ⟨[], [], [], [], [], [], [], [], [], [], []⟩
    ∧ parseSlashCommandPayload body =
        ⟨specFieldValue body (jstr "token"), specFieldValue body (jstr "team_id"),
         specFieldValue body (jstr "team_domain"), specFieldValue body (jstr "channel_id"),
         specFieldValue body (jstr "channel_name"), specFieldValue body (jstr "user_id"),
         specFieldValue body (jstr "user_name"), specFieldValue body (jstr "command"),
         specFieldValue body (jstr "text"), specFieldValue body (jstr "response_url"),
         specFieldValue body (jstr "trigger_id")⟩
    ∧ payloadOfPairs (pre ++ (k, v) :: post) = payloadOfPairs (pre ++ post)
    ∧ (parseSlashCommandPayload
        (jstr "text=hello%20world&response_url=https%3A%2F%2Fx")).text = jstr "hello world"
    ∧ (parseSlashCommandPayload
        (jstr "text=hello%20world&response_url=https%3A%2F%2Fx")).response_url
        = jstr "https://x" := by
  refine ⟨by decide, ?_, payloadOfPairsSkip pre post k v hk, by decide, by decide⟩
  unfold parseSlashCommandPayload payloadOfPairs
  simp only [SlackSlashCommandPayload.mk.injEq]
  exact ⟨getOrEmptyEqSpec body _, getOrEmptyEqSpec body _, getOrEmptyEqSpec body _,
    getOrEmptyEqSpec body _, getOrEmptyEqSpec body _, getOrEmptyEqSpec body _,
    getOrEmptyEqSpec body _, getOrEmptyEqSpec body _, getOrEmptyEqSpec body _,
    getOrEmptyEqSpec body _, getOrEmptyEqSpec body _⟩

/-- Witness for C7 at body `"a=1"` and unknown key `"foo"`. -/
theorem claim_C7_witness :
    ((jstr "foo") ∉ knownKeys) ∧
    (parseSlashCommandPayload (jstr "") = ⟨[], [], [], [], [], [], [], [], [], [], []⟩
    ∧ parseSlashCommandPayload (jstr "a=1") =
        ⟨specFieldValue (jstr "a=1") (jstr "token"), specFieldValue (jstr "a=1") (jstr "team_id"),
         specFieldValue (jstr "a=1") (jstr "team_domain"),
         specFieldValue (jstr "a=1") (jstr "channel_id"),
         specFieldValue (jstr "a=1") (jstr "channel_name"),
         specFieldValue (jstr "a=1") (jstr "user_id"),
         specFieldValue (jstr "a=1") (jstr "user_name"),
         specFieldValue (jstr "a=1") (jstr "command"),
         specFieldValue (jstr "a=1") (jstr "text"),
         specFieldValue (jstr "a=1") (jstr "response_url"),
         specFieldValue (jstr "a=1") (jstr "trigger_id")⟩
    ∧ payloadOfPairs ([] ++ (jstr "foo", jstr "bar") :: []) = payloadOfPairs ([] ++ [])
    ∧ (parseSlashCommandPayload
        (jstr "text=hello%20world&response_url=https%3A%2F%2Fx")).text = jstr "hello world"
    ∧ (parseSlashCommandPayload
        (jstr "text=hello%20world&response_url=https%3A%2F%2Fx")).response_url
        = jstr "https://x") :=
  ⟨by decide,
   claim_C7_parser_fields (jstr "a=1") (jstr "foo") (jstr "bar") [] [] (by decide)⟩

/-! ### Grounding of the hash embedding and further witnesses -/

/-- FIPS 180-4 test vector: SHA-256 of the string `abc`. -/
theorem sha256TestVector :
    toHexStr (sha256 (utf8Encode (jstr "abc"))) =
      jstr "ba7816bf8f01cfea414140de5dae2223b00361a396177a9cb410ff61f20015ad" := by decide

/-- Known-answer test for HMAC-SHA256 with key `key`. -/
theorem hmacSha256TestVector :
    hmacSha256Hex (jstr "key") (jstr "The quick brown fox jumps over the lazy dog") =
      jstr "f7bc83f430538424b13298e6aa6fb143ef4d59a14946175997479dbc2d1a3cd8" := by decide

/-- Witness for C6 at concrete equal and unequal strings. -/
theorem claim_C6_witness :
    (timingSafeEqualStr (jstr "ab") (jstr "ab") = true ↔ jstr "ab" = jstr "ab") ∧
    (timingSafeEqualStr (jstr "ab") (jstr "ac") = true ↔ jstr "ab" = jstr "ac") :=
  ⟨claim_C6_timingSafeEqual_iff_eq (jstr "ab") (jstr "ab"),
   claim_C6_timingSafeEqual_iff_eq (jstr "ab") (jstr "ac")⟩

/-- Witness for C9 at concrete messages. -/
theorem claim_C9_witness :
    (createSlackResponse (jstr "orig") (jstr "rew")).response_type = some RespType.ephemeral
    ∧ (createErrorResponse (jstr "err")).response_type = some RespType.ephemeral
    ∧ ackResponse.response_type = some RespType.ephemeral
    ∧ (createSlackResponse (jstr "orig") (jstr "rew")).response_type ≠ some RespType.in_channel
    ∧ (createErrorResponse (jstr "err")).response_type ≠ some RespType.in_channel
    ∧ ackResponse.response_type ≠ some RespType.in_channel
    ∧ (createErrorResponse (jstr "err")).text = some (jstr ":warning: " ++ jstr "err") :=
  claim_C9_renderings_ephemeral (jstr "orig") (jstr "rew") (jstr "err")

/-- Witness for C10 at a concrete input with a nonempty secret. -/
theorem claim_C10_witness :
    (jstr "s" ≠ []) ∧
    verifySlackRequestWeb (jstr "s") (some (jstr "v0=ff")) (some (jstr "7")) (jstr "b") 7 =
      some (verifySlackRequestNode (jstr "s") (some (jstr "v0=ff"))
        (some (jstr "7")) (jstr "b") 7) :=
  ⟨by decide,
   claim_C10_node_web_equivalent (jstr "s") (some (jstr "v0=ff")) (some (jstr "7")) (jstr "b") 7
     (by decide)⟩

end Reword
